import Mathlib

/-
Verification of the py-spy command-line front end (src/main.rs).

The file shallowly embeds the code of `main.rs`: the printing routine
`print_traces`, the error classifiers `process_exitted` and
`permission_denied`, the two sampling loops of `sample_console` and
`sample_flame`, the dispatch logic of `pyspy_main` and the top-level
error handling of `main`.  The engine (`PythonSpy`), the console viewer
and the flame-graph aggregator live in modules that are not part of the
checked sources; their results enter the model as explicit oracles
(`Env`, sample scripts), and the few facts needed about them
(`status_str`, the rendering of `--help`-level strings) are modelled
from the spec where noted.
-/

namespace PySpy

/-- StackFrame, from stack_trace.rs as described by the spec's data model:
name, filename, optional short_filename and current line. -/
structure StackFrame where
  name : String
  filename : String
  short_filename : Option String
  line : Int
deriving DecidableEq

/-- StackTrace: interpreter thread id, activity flag, GIL flag and the
ordered frames. -/
structure StackTrace where
  thread_id : Nat
  active : Bool
  owns_gil : Bool
  frames : List StackFrame
deriving DecidableEq

/-- Modelled from the spec: `status_str` is defined in the stack_trace
module, which is not among the checked sources.  The spec's dump format
shows the status as active|idle, determined by the trace's `active`
flag. -/
def StackTrace.status_str (t : StackTrace) : String :=
  if t.active then "active" else "idle"

/-- One upper-case hexadecimal digit for a value below 16, as produced by
Rust's `{:#X}` formatter. -/
def hexDigitU (m : Nat) : Char :=
  if m < 10 then Char.ofNat (48 + m) else Char.ofNat (55 + m)

/-- Digits accumulator for upper-case hexadecimal rendering: pushes the
digits of `n` (most significant first) in front of `acc`.  The first
argument is fuel; `n + 1` fuel always suffices since `n` shrinks by a
factor of 16 every step. -/
def hexDigitsAux : Nat → Nat → List Char → List Char
  | 0, _, acc => acc
  | fuel + 1, n, acc =>
    let d := hexDigitU (n % 16)
    if n / 16 = 0 then d :: acc else hexDigitsAux fuel (n / 16) (d :: acc)

/-- Rust's `{:#X}` formatting of an unsigned integer: `0x` prefix followed
by upper-case hexadecimal digits (zero renders as `0x0`). -/
def rustHexX (n : Nat) : String :=
  "0x" ++ String.mk (hexDigitsAux (n + 1) n [])

/-- The filename chosen by `print_traces` for a frame: the
`short_filename` when present, the full `filename` otherwise
(main.rs line 46). -/
def frameFilename (f : StackFrame) : String :=
  match f.short_filename with
  | some s => s
  | none => f.filename

/-- One frame line of `print_traces` (main.rs line 47): tab indent, the
function name, and the chosen filename with the line number. -/
def frameLine (f : StackFrame) : String :=
  "\t " ++ f.name ++ " (" ++ frameFilename f ++ ":" ++ toString f.line ++ ")"

/-- The thread header line of `print_traces` (main.rs line 44). -/
def headerLine (t : StackTrace) : String :=
  "Thread " ++ rustHexX t.thread_id ++ " (" ++ t.status_str ++ ")"

/-- print_traces (main.rs lines 38-50): for each trace, skip it when
idle traces are hidden and the trace is not active, otherwise print the
header line followed by one line per frame. -/
def print_traces (traces : List StackTrace) (show_idle : Bool) : List String :=
  match traces with
  | [] => []
  | t :: rest =>
    (if !show_idle && !t.active then []
     else headerLine t :: t.frames.map frameLine) ++ print_traces rest show_idle

/-- The frame line as the claim words it: a tab-indented line holding
the function name and then, in parentheses, the frame's short_filename
when present (the full filename otherwise) and the line number. -/
def claimFrameLine (f : StackFrame) : String :=
  "\t " ++ f.name ++ " ("
    ++ (match f.short_filename with | some s => s | none => f.filename)
    ++ ":" ++ toString f.line ++ ")"

/-- The output lines claimed for one dumped trace, written from the
claim's wording: the line Thread 0x<HEXID> (<status>) with status
active or idle, then one tab-indented line per frame in frame order. -/
def dumpTraceLinesClaim (t : StackTrace) : List String :=
  ("Thread " ++ rustHexX t.thread_id ++ " ("
      ++ (if t.active then "active" else "idle") ++ ")")
    :: t.frames.map claimFrameLine

/-- The dump output claimed for a whole trace list: the per-trace blocks
in order. -/
def dumpOutputClaim : List StackTrace → List String
  | [] => []
  | t :: rest => dumpTraceLinesClaim t ++ dumpOutputClaim rest

/-- A character is an upper-case hexadecimal digit: 0-9 or A-F. -/
def isUpperHexDigit (c : Char) : Bool :=
  (48 ≤ c.toNat && c.toNat ≤ 57) || (65 ≤ c.toNat && c.toNat ≤ 70)

/-- Kind of a std::io::Error, as inspected by `permission_denied`
(main.rs line 69).  Only the PermissionDenied kind is distinguished by
the code; the other kinds it may meet are grouped. -/
inductive ErrorKind where
  | permissionDenied
  | notFound
  | otherKind
deriving DecidableEq

/-- One cause in a failure::Error cause chain: either a downcastable
std::io::Error (with kind, optional raw OS error code and display
message), or some other failure with a display message. -/
inductive Cause where
  | io (kind : ErrorKind) (rawOs : Option Int) (msg : String)
  | failure (msg : String)
deriving DecidableEq

/-- The display message of a cause (what `{}` formatting prints). -/
def Cause.display : Cause → String
  | Cause.io _ _ m => m
  | Cause.failure m => m

/-- A failure::Error: the error itself plus its chain of causes, and the
backtrace string the reporter prints. -/
structure PError where
  top : Cause
  rest : List Cause
  backtrace : String
deriving DecidableEq

/-- err.causes() of the failure crate: the error itself followed by its
causes. -/
def PError.causes (e : PError) : List Cause := e.top :: e.rest

/-- process_exitted (main.rs lines 52-64): some cause downcasts to an
I/O error whose raw OS error code is 3, 60 or 299. -/
def process_exitted (err : PError) : Bool :=
  err.causes.any fun cause =>
    match cause with
    | Cause.io _ (some err_code) _ => err_code == 3 || err_code == 60 || err_code == 299
    | _ => false

/-- permission_denied (main.rs lines 66-74): some cause downcasts to an
I/O error of kind PermissionDenied. -/
def permission_denied (err : PError) : Bool :=
  err.causes.any fun cause =>
    match cause with
    | Cause.io ErrorKind.permissionDenied _ _ => true
    | _ => false

/-- One outcome of `process.get_stack_traces()` as seen by the sampling
loops: a trace snapshot, or a failure::Error. -/
inductive SampleResult where
  | ok (traces : List StackTrace)
  | err (e : PError)
deriving DecidableEq

/-- Whether a sample outcome is an error classified as process exit. -/
def isExitRes : SampleResult → Bool
  | SampleResult.ok _ => false
  | SampleResult.err e => process_exitted e

/-- Number of process-exit-classified errors in a finite result list. -/
def countExitList : List SampleResult → Nat
  | [] => 0
  | r :: rs => (if isExitRes r then 1 else 0) + countExitList rs

/-- The break condition of the `sample_console` loop (main.rs lines
84-107), run over a finite prefix of get_stack_traces outcomes with the
current exitted_count: returns true exactly when the loop prints
"process ended" and breaks within that prefix.  Successful samples feed
the console viewer and leave exitted_count untouched; errors not
classified as process exit are counted as console errors only.  (The
console viewer itself is not among the checked sources; its display
calls are modelled as succeeding.) -/
def consoleLoopEnds : List SampleResult → Nat → Bool
  | [], _ => false
  | r :: rs, exitted_count =>
    match r with
    | SampleResult.ok _ => consoleLoopEnds rs exitted_count
    | SampleResult.err e =>
      if process_exitted e then
        if exitted_count + 1 > 5 then true
        else consoleLoopEnds rs (exitted_count + 1)
      else consoleLoopEnds rs exitted_count

/-- Result of the `sample_flame` loop: how many get_stack_traces calls
were made, the successful sample count, the error count, and whether
the loop broke early with "process ended". -/
structure FlameOutcome where
  calls : Nat
  samples : Nat
  errors : Nat
  ended : Bool
deriving DecidableEq

/-- The `sample_flame` loop body (main.rs lines 122-141), driven by a
script giving the outcome of the i-th get_stack_traces call: arguments
are the remaining iterations, the next call index, the samples and
errors counters and exitted_count.  On the breaking error the code
skips the errors increment (the break precedes it). -/
def flameLoopGo (script : Nat → SampleResult) :
    Nat → Nat → Nat → Nat → Nat → FlameOutcome
  | 0, idx, samples, errors, _ =>
    { calls := idx, samples := samples, errors := errors, ended := false }
  | fuel + 1, idx, samples, errors, exitted_count =>
    match script idx with
    | SampleResult.ok _ => flameLoopGo script fuel (idx + 1) (samples + 1) errors exitted_count
    | SampleResult.err e =>
      if process_exitted e then
        if exitted_count + 1 > 3 then
          { calls := idx + 1, samples := samples, errors := errors, ended := true }
        else flameLoopGo script fuel (idx + 1) samples (errors + 1) (exitted_count + 1)
      else flameLoopGo script fuel (idx + 1) samples (errors + 1) exitted_count

/-- Number of process-exit-classified outcomes among the `fuel` script
entries starting at index `idx`. -/
def countExitFrom (script : Nat → SampleResult) : Nat → Nat → Nat
  | _, 0 => 0
  | idx, fuel + 1 =>
    (if isExitRes (script idx) then 1 else 0) + countExitFrom script (idx + 1) fuel

/-- A concrete flame-graph output path used by witnesses. -/
def outSvg : String := "out.svg"

/-- The operating systems distinguished by the cfg attributes of
main.rs. -/
inductive OS where
  | macos
  | linux
  | windows
deriving DecidableEq

/-- Oracles for the file operations of `sample_flame` (main.rs lines
144-152): the outcome of File::create, of flame.write, and of the
macOS-only browser open. -/
structure FileEnv where
  createErr : Option PError
  writeErr : Option PError
  openErr : Option PError
deriving DecidableEq

/-- Result of one `sample_flame` call: the loop outcome, the path the
flame graph was written to (when it was), and the returned Result. -/
structure FlameRun where
  out : FlameOutcome
  wrote : Option String
  result : Except PError Unit

/-- sample_flame (main.rs lines 112-155): run the sampling loop for
max_samples = 2000 iterations, then create the output file and write
the aggregated flame graph into it; on macOS additionally spawn a
browser open of the file.  Each file operation's failure propagates
through its question-mark operator. -/
def sample_flame (script : Nat → SampleResult) (fenv : FileEnv) (filename : String)
    (os : OS) : FlameRun :=
  let o := flameLoopGo script 2000 0 0 0 0
  match fenv.createErr with
  | some e => { out := o, wrote := none, result := Except.error e }
  | none =>
    match fenv.writeErr with
    | some e => { out := o, wrote := none, result := Except.error e }
    | none =>
      if os = OS.macos then
        match fenv.openErr with
        | some e => { out := o, wrote := some filename, result := Except.error e }
        | none => { out := o, wrote := some filename, result := Except.ok () }
      else { out := o, wrote := some filename, result := Except.ok () }

/-- A concrete backtrace string for witness errors. -/
def btMsg : String := "stack backtrace"

/-- A concrete I/O error message for witness errors. -/
def ioMsg : String := "No such process"

/-- A concrete error whose cause chain holds an I/O error with raw OS
code 3: it is classified as process exit. -/
def exitErr : PError :=
  { top := Cause.io ErrorKind.otherKind (some 3) ioMsg, rest := [], backtrace := btMsg }

/-- A script of get_stack_traces outcomes in which each process-exit
error is followed by a successful sample: six exit errors, never two in
a row. -/
def script6 : List SampleResult :=
  [SampleResult.err exitErr, SampleResult.ok [], SampleResult.err exitErr,
   SampleResult.ok [], SampleResult.err exitErr, SampleResult.ok [],
   SampleResult.err exitErr, SampleResult.ok [], SampleResult.err exitErr,
   SampleResult.ok [], SampleResult.err exitErr]

/-- Whether a result list contains two adjacent process-exit errors. -/
def hasTwoConsecExit : List SampleResult → Bool
  | r1 :: r2 :: rs => (isExitRes r1 && isExitRes r2) || hasTwoConsecExit (r2 :: rs)
  | _ => false

/-- The character accepted by Rust's unsigned parser as a leading sign. -/
def plusChar : Char := Char.ofNat 43

/-- Rust's str::parse::<u32>: optional leading plus sign, then a
nonempty run of ASCII decimal digits whose value fits an unsigned
32-bit integer; anything else (empty input, other characters,
overflow) is a parse error. -/
def parseU32 (s : String) : Option Nat :=
  let ds := s.data
  let digits := if ds.head? = some plusChar then ds.tail else ds
  if digits.isEmpty then none
  else if digits.all Char.isDigit then
    let v := digits.foldl (fun acc c => acc * 10 + (c.toNat - 48)) 0
    if v < 4294967296 then some v else none
  else none

/-- The clap matches consumed by pyspy_main (main.rs lines 158-181):
the pid value when given, how often --dump occurred, the --flame value
when given, and the positional program when given. -/
structure Args where
  pid : Option String
  dumpCount : Nat
  flame : Option String
  program : Option (List String)
deriving DecidableEq

/-- Observable calls made by pyspy_main, in program order: engine
construction via retry_new with its attempts argument, the dump print,
entering sample_flame or sample_console (with the show_idle flag the
console viewer receives), spawning the child, and killing it. -/
inductive Event where
  | retryNew (pid attempts : Nat)
  | printTracesCall (traces : List StackTrace) (show_idle : Bool)
  | sampleFlameCall (filename : String)
  | sampleConsoleCall (display : String) (show_idle : Bool)
  | spawnChild (prog : List String)
  | kill (childId : Nat)
deriving DecidableEq

/-- How pyspy_main finishes: Ok(()), Err(e), or a panic (the
`.expect("invalid pid")` on main.rs line 184). -/
inductive MainOutcome where
  | ok
  | error (e : PError)
  | panicked (msg : String)
deriving DecidableEq

/-- Oracles for everything pyspy_main calls whose code is outside the
checked sources: PythonSpy::retry_new (by pid and attempts), the dump's
get_stack_traces, the results of sample_flame and sample_console (by
their string argument), Command::spawn (yielding the child id) and
Child::try_wait (yielding the exit success when the child finished). -/
structure Env where
  retryNew : Nat → Nat → Except PError Unit
  dumpTraces : Except PError (List StackTrace)
  flameResult : String → Except PError Unit
  consoleResult : String → Except PError Unit
  spawn : List String → Except PError Nat
  tryWait : Except PError (Option Bool)

/-- The panic message of the pid parse (main.rs line 184). -/
def invalidPidMsg : String := "invalid pid"

/-- The literal in front of the pid in the console display string. -/
def pidLabel : String := "pid: "

/-- The console display string of the pid branch (main.rs line 194). -/
def pidDisplay (pid : Nat) : String := pidLabel ++ toString pid

/-- The separator of subprocess.join(" ") (main.rs line 218). -/
def spaceSep : String := " "

/-- subprocess.join(" "): the console display string of the program
branch. -/
def joinWords (ws : List String) : String := String.intercalate spaceSep ws

/-- Mapping a sampling Result to pyspy_main's outcome: the pid branch
propagates it through the question-mark operator, the program branch
returns it verbatim; both give Ok(()) on success and Err(e) on error. -/
def resultOutcome : Except PError Unit → MainOutcome
  | Except.ok _ => MainOutcome.ok
  | Except.error e => MainOutcome.error e

/-- The pid branch of pyspy_main (main.rs lines 183-197): parse the pid
(panicking on a bad value), build the engine with retry_new(pid, 3),
then dump when --dump occurred, else flame when --flame was given, else
live console with display "pid: <pid>" and show_idle = false. -/
def pidBranch (pidStr : String) (args : Args) (env : Env) : List Event × MainOutcome :=
  match parseU32 pidStr with
  | none => ([], MainOutcome.panicked invalidPidMsg)
  | some pid =>
    match env.retryNew pid 3 with
    | Except.error e => ([Event.retryNew pid 3], MainOutcome.error e)
    | Except.ok _ =>
      if args.dumpCount > 0 then
        match env.dumpTraces with
        | Except.error e => ([Event.retryNew pid 3], MainOutcome.error e)
        | Except.ok traces =>
          ([Event.retryNew pid 3, Event.printTracesCall traces true], MainOutcome.ok)
      else
        match args.flame with
        | some flameFile =>
          ([Event.retryNew pid 3, Event.sampleFlameCall flameFile],
           resultOutcome (env.flameResult flameFile))
        | none =>
          ([Event.retryNew pid 3, Event.sampleConsoleCall (pidDisplay pid) false],
           resultOutcome (env.consoleResult (pidDisplay pid)))

/-- The sampling step of the program branch (main.rs lines 213-222):
build the engine with retry_new(child id, 3); on success run flame or
console (display = the joined command line, show_idle = false); the
Result is kept, not propagated. -/
def progSampling (prog : List String) (args : Args) (env : Env) (child : Nat) :
    List Event × Except PError Unit :=
  match env.retryNew child 3 with
  | Except.error e => ([Event.retryNew child 3], Except.error e)
  | Except.ok _ =>
    match args.flame with
    | some flameFile =>
      ([Event.retryNew child 3, Event.sampleFlameCall flameFile], env.flameResult flameFile)
    | none =>
      ([Event.retryNew child 3, Event.sampleConsoleCall (joinWords prog) false],
       env.consoleResult (joinWords prog))

/-- The program branch of pyspy_main (main.rs lines 199-253): spawn the
child (propagating a spawn failure), sample, then try_wait on the child
— whose failure propagates through the question-mark operator BEFORE
the kill — and otherwise kill the child and return the sampling
Result.  The stderr dump of a failed child only prints diagnostics and
is omitted from the events. -/
def progBranch (prog : List String) (args : Args) (env : Env) : List Event × MainOutcome :=
  match env.spawn prog with
  | Except.error e => ([Event.spawnChild prog], MainOutcome.error e)
  | Except.ok child =>
    match env.tryWait with
    | Except.error e =>
      (Event.spawnChild prog :: (progSampling prog args env child).1, MainOutcome.error e)
    | Except.ok _ =>
      (Event.spawnChild prog :: (progSampling prog args env child).1 ++ [Event.kill child],
       resultOutcome (progSampling prog args env child).2)

/-- pyspy_main (main.rs lines 157-257): dispatch on the pid argument,
then on the positional program; with neither, return Ok(()). -/
def pyspy_main (args : Args) (env : Env) : List Event × MainOutcome :=
  match args.pid with
  | some pidStr => pidBranch pidStr args env
  | none =>
    match args.program with
    | some prog => progBranch prog args env
    | none => ([], MainOutcome.ok)

/-- The permission hint printed by main (main.rs line 271). -/
def permissionHint : String :=
  "Permission Denied: Try running again with elevated permissions by going 'sudo env \"PATH=$PATH\" !!'"

/-- The substring required by the spec's permission scenario. -/
def permDeniedStr : String := "Permission Denied"

/-- The rest of the permission hint after that substring. -/
def hintSuffix : String :=
  ": Try running again with elevated permissions by going 'sudo env \"PATH=$PATH\" !!'"

/-- The empty string. -/
def emptyStr : String := ""

/-- The label of the generic error report's first line. -/
def errLabel : String := "Error: "

/-- The label of the generic error report's cause lines. -/
def reasonLabel : String := "Reason: "

/-- First line of the macOS root check (main.rs line 263). -/
def macosRootMsg1 : String := "This program requires root on OSX."

/-- Second line of the macOS root check (main.rs line 264). -/
def macosRootMsg2 : String :=
  "Try running again with elevated permissions by going 'sudo !!'"

/-- The generic error report of main (main.rs lines 275-281): the error,
a Reason line per further cause, and the backtrace. -/
def errorReport (err : PError) : List String :=
  (errLabel ++ Cause.display err.top)
    :: (err.rest.map (fun c => reasonLabel ++ Cause.display c) ++ [err.backtrace])

/-- How the process run ends: exit with a code and the stderr lines
printed, or a panic. -/
inductive RunResult where
  | exited (code : Nat) (stderrLines : List String)
  | panicked (msg : String)
deriving DecidableEq

/-- The error handling of main (main.rs lines 269-283): Ok exits 0 with
no report; a permission-denied error prints only the hint and exits 1;
any other error prints the generic report and exits 1; a panic
propagates. -/
def mainHandle : MainOutcome → RunResult
  | MainOutcome.panicked m => RunResult.panicked m
  | MainOutcome.ok => RunResult.exited 0 []
  | MainOutcome.error err =>
    if permission_denied err then RunResult.exited 1 [permissionHint]
    else RunResult.exited 1 (errorReport err)

/-- main (main.rs lines 259-284): on macOS with a nonzero effective
user id, print the two root-requirement lines and exit 1 before
anything else; otherwise run pyspy_main and handle its outcome. -/
def mainModel (os : OS) (euid : Nat) (args : Args) (env : Env) : List Event × RunResult :=
  if os = OS.macos ∧ euid ≠ 0 then
    ([], RunResult.exited 1 [macosRootMsg1, macosRootMsg2])
  else
    ((pyspy_main args env).1, mainHandle (pyspy_main args env).2)

/-- The needle occurs as a substring of the haystack. -/
def occursIn (needle hay : String) : Prop :=
  ∃ pre post, hay = pre ++ (needle ++ post)

/-- Whether the events contain a kill of some child. -/
def hasKill (events : List Event) : Bool :=
  events.any fun ev =>
    match ev with
    | Event.kill _ => true
    | _ => false

/-- A concrete permission-denied message. -/
def permMsg : String := "Operation not permitted"

/-- A concrete error whose cause chain holds a PermissionDenied I/O
error. -/
def permErr : PError :=
  { top := Cause.io ErrorKind.permissionDenied none permMsg, rest := [], backtrace := btMsg }

/-- A concrete try_wait failure (an I/O error that is not classified as
process exit). -/
def waitErr : PError :=
  { top := Cause.io ErrorKind.otherKind (some 5) ioMsg, rest := [], backtrace := btMsg }

/-- A concrete function name for witness frames. -/
def fnName : String := "sleep"

/-- A concrete filename for witness frames. -/
def fileNameA : String := "time.py"

/-- A concrete stack frame. -/
def frameA : StackFrame :=
  { name := fnName, filename := fileNameA, short_filename := none, line := 10 }

/-- A concrete stack trace. -/
def traceA : StackTrace :=
  { thread_id := 291, active := true, owns_gil := true, frames := [frameA] }

/-- A concrete program name. -/
def progName : String := "python"

/-- A concrete program argument. -/
def progArgStr : String := "prog.py"

/-- A concrete positional command line. -/
def progCmd : List String := [progName, progArgStr]

/-- A concrete pid string that parses. -/
def pidStrOk : String := "12"

/-- A concrete pid string that does not parse as u32. -/
def pidStrBad : String := "abc"

/-- An environment in which every oracle succeeds. -/
def envOk : Env :=
  { retryNew := fun _ _ => Except.ok ()
    dumpTraces := Except.ok [traceA]
    flameResult := fun _ => Except.ok ()
    consoleResult := fun _ => Except.ok ()
    spawn := fun _ => Except.ok 7
    tryWait := Except.ok (some true) }

/-- Like envOk but try_wait fails. -/
def envWaitErr : Env := { envOk with tryWait := Except.error waitErr }

/-- Like envOk but engine construction fails with permission denied. -/
def envPermErr : Env := { envOk with retryNew := fun _ _ => Except.error permErr }

/-- Arguments: --pid 12 --dump --flame out.svg. -/
def argsPidDump : Args :=
  { pid := some pidStrOk, dumpCount := 1, flame := some outSvg, program := none }

/-- Arguments: --pid abc. -/
def argsPidBad : Args :=
  { pid := some pidStrBad, dumpCount := 0, flame := none, program := none }

/-- Arguments: positional program only. -/
def argsProg : Args :=
  { pid := none, dumpCount := 0, flame := none, program := some progCmd }

theorem hexDigitsAux_all (fuel : Nat) :
    ∀ n acc, acc.all isUpperHexDigit = true →
      (hexDigitsAux fuel n acc).all isUpperHexDigit = true := by
  induction fuel with
  | zero => intro n acc h; simpa [hexDigitsAux] using h
  | succ fuel ih =>
    intro n acc h
    have hd : isUpperHexDigit (hexDigitU (n % 16)) = true := by
      have h16 : n % 16 < 16 := Nat.mod_lt _ (by omega)
      revert h16
      have : ∀ m, m < 16 → isUpperHexDigit (hexDigitU m) = true := by decide
      exact this (n % 16)
    simp only [hexDigitsAux]
    split
    · simpa [List.all_cons, hd] using h
    · exact ih (n / 16) _ (by simpa [List.all_cons, hd] using h)

theorem hexDigitsAux_length (fuel : Nat) :
    ∀ n acc, acc.length ≤ (hexDigitsAux fuel n acc).length := by
  induction fuel with
  | zero => intro n acc; simp [hexDigitsAux]
  | succ fuel ih =>
    intro n acc
    simp only [hexDigitsAux]
    split
    · simp
    · calc acc.length ≤ (hexDigitU (n % 16) :: acc).length := by simp
        _ ≤ _ := ih (n / 16) _

theorem hexDigitsAux_ne_nil (n : Nat) : hexDigitsAux (n + 1) n [] ≠ [] := by
  intro h
  have h1 : ([] : List Char).length ≤ (hexDigitsAux (n + 1) n []).length := by
    simp only [hexDigitsAux]
    split
    · simp
    · calc ([] : List Char).length ≤ 1 := by simp
        _ ≤ ([hexDigitU (n % 16)] : List Char).length := by simp
        _ ≤ _ := hexDigitsAux_length n (n / 16) _
  rw [h] at h1
  have h2 : (0 : Nat) < (hexDigitsAux (n + 1) n []).length := by
    simp only [hexDigitsAux]
    split
    · simp
    · calc (0 : Nat) < 1 := by omega
        _ = ([hexDigitU (n % 16)] : List Char).length := by simp
        _ ≤ _ := hexDigitsAux_length n (n / 16) _
  rw [h] at h2
  simp at h2

/-- C1: every stack trace printed by the dump path (show_idle = true)
produces the header line Thread 0x<HEXID> (<status>) followed by one
tab-indented line per frame in frame order, the filename being the
frame's short_filename when present and the full filename otherwise;
and the hexadecimal id really is 0x followed by a nonempty run of
upper-case hexadecimal digits. -/
theorem print_traces_dump_format :
    (∀ traces : List StackTrace, print_traces traces true = dumpOutputClaim traces)
    ∧ (∀ n : Nat, rustHexX n = "0x" ++ String.mk (hexDigitsAux (n + 1) n [])
        ∧ hexDigitsAux (n + 1) n [] ≠ []
        ∧ (hexDigitsAux (n + 1) n []).all isUpperHexDigit = true) := by
  constructor
  · intro traces
    have hcf : claimFrameLine = frameLine := by
      funext f
      simp [claimFrameLine, frameLine, frameFilename]
    induction traces with
    | nil => rfl
    | cons t rest ih =>
      simp only [print_traces, dumpOutputClaim, dumpTraceLinesClaim, headerLine,
        StackTrace.status_str, hcf, ih]
      simp
  · intro n
    exact ⟨rfl, hexDigitsAux_ne_nil n, hexDigitsAux_all (n + 1) n [] rfl⟩

/-- C8: the classification predicate.  An error is classified as process
exit exactly when its cause chain holds an I/O error whose raw OS code
is 3, 60 or 299; everything else (other causes, I/O errors without a
raw code or with another code) is not. -/
theorem process_exit_classification (err : PError) :
    process_exitted err = true ↔
      ∃ c ∈ err.causes, ∃ k m code, c = Cause.io k (some code) m
        ∧ (code = 3 ∨ code = 60 ∨ code = 299) := by
  unfold process_exitted
  rw [List.any_eq_true]
  constructor
  · rintro ⟨c, hc, hb⟩
    refine ⟨c, hc, ?_⟩
    cases c with
    | io k rawOs m =>
      cases rawOs with
      | none => simp at hb
      | some code =>
        refine ⟨k, m, code, rfl, ?_⟩
        have hb' : (code = 3 ∨ code = 60) ∨ code = 299 := by
          simpa [beq_iff_eq] using hb
        tauto
    | failure m => simp at hb
  · rintro ⟨c, hc, k, m, code, rfl, hcode⟩
    refine ⟨Cause.io k (some code) m, hc, ?_⟩
    have hcode' : (code = 3 ∨ code = 60) ∨ code = 299 := by tauto
    simpa [beq_iff_eq] using hcode'

theorem consoleLoopEnds_iff_count (rs : List SampleResult) :
    ∀ x, x ≤ 5 → (consoleLoopEnds rs x = true ↔ 6 ≤ x + countExitList rs) := by
  induction rs with
  | nil =>
    intro x hx
    simp [consoleLoopEnds, countExitList]
    omega
  | cons r rs ih =>
    intro x hx
    cases r with
    | ok t =>
      rw [show consoleLoopEnds (SampleResult.ok t :: rs) x = consoleLoopEnds rs x from rfl,
        show countExitList (SampleResult.ok t :: rs) = countExitList rs from by
          simp [countExitList, isExitRes],
        ih x hx]
    | err e =>
      by_cases hp : process_exitted e = true
      · rw [show consoleLoopEnds (SampleResult.err e :: rs) x
              = (if x + 1 > 5 then true else consoleLoopEnds rs (x + 1)) from by
            simp [consoleLoopEnds, hp],
          show countExitList (SampleResult.err e :: rs) = 1 + countExitList rs from by
            simp [countExitList, isExitRes, hp]]
        by_cases hx5 : x + 1 > 5
        · rw [if_pos hx5]
          constructor
          · intro _
            omega
          · intro _
            rfl
        · rw [if_neg hx5, ih (x + 1) (by omega)]
          omega
      · have hp' : process_exitted e = false := by simpa using hp
        rw [show consoleLoopEnds (SampleResult.err e :: rs) x = consoleLoopEnds rs x from by
            simp [consoleLoopEnds, hp'],
          show countExitList (SampleResult.err e :: rs) = countExitList rs from by
            simp [countExitList, isExitRes, hp'],
          ih x hx]

theorem flameLoopGo_ended_iff (script : Nat → SampleResult) (fuel : Nat) :
    ∀ idx samples errors x, x ≤ 3 →
      ((flameLoopGo script fuel idx samples errors x).ended = true ↔
        4 ≤ x + countExitFrom script idx fuel) := by
  induction fuel with
  | zero =>
    intro idx samples errors x hx
    simp [flameLoopGo, countExitFrom]
    omega
  | succ fuel ih =>
    intro idx samples errors x hx
    cases hs : script idx with
    | ok t =>
      rw [show flameLoopGo script (fuel + 1) idx samples errors x
            = flameLoopGo script fuel (idx + 1) (samples + 1) errors x from by
          simp [flameLoopGo, hs],
        show countExitFrom script idx (fuel + 1) = countExitFrom script (idx + 1) fuel from by
          simp [countExitFrom, hs, isExitRes],
        ih (idx + 1) (samples + 1) errors x hx]
    | err e =>
      by_cases hp : process_exitted e = true
      · rw [show countExitFrom script idx (fuel + 1)
              = 1 + countExitFrom script (idx + 1) fuel from by
            simp [countExitFrom, hs, isExitRes, hp]]
        by_cases hx3 : x + 1 > 3
        · rw [show flameLoopGo script (fuel + 1) idx samples errors x
                = { calls := idx + 1, samples := samples, errors := errors,
                    ended := true } from by
              simp [flameLoopGo, hs, hp, hx3]]
          constructor
          · intro _
            omega
          · intro _
            rfl
        · rw [show flameLoopGo script (fuel + 1) idx samples errors x
                = flameLoopGo script fuel (idx + 1) samples (errors + 1) (x + 1) from by
              simp [flameLoopGo, hs, hp, hx3],
            ih (idx + 1) samples (errors + 1) (x + 1) (by omega)]
          omega
      · have hp' : process_exitted e = false := by simpa using hp
        rw [show flameLoopGo script (fuel + 1) idx samples errors x
              = flameLoopGo script fuel (idx + 1) samples (errors + 1) x from by
            simp [flameLoopGo, hs, hp'],
          show countExitFrom script idx (fuel + 1) = countExitFrom script (idx + 1) fuel from by
            simp [countExitFrom, hs, isExitRes, hp'],
          ih (idx + 1) samples (errors + 1) x hx]

theorem flameLoopGo_calls (script : Nat → SampleResult) (fuel : Nat) :
    ∀ idx samples errors x,
      (flameLoopGo script fuel idx samples errors x).calls ≤ idx + fuel
      ∧ ((flameLoopGo script fuel idx samples errors x).ended = false →
          (flameLoopGo script fuel idx samples errors x).calls = idx + fuel) := by
  induction fuel with
  | zero => intro idx samples errors x; simp [flameLoopGo]
  | succ fuel ih =>
    intro idx samples errors x
    cases hs : script idx with
    | ok t =>
      rw [show flameLoopGo script (fuel + 1) idx samples errors x
            = flameLoopGo script fuel (idx + 1) (samples + 1) errors x from by
          simp [flameLoopGo, hs]]
      have h := ih (idx + 1) (samples + 1) errors x
      constructor
      · omega
      · intro h2
        rw [h.2 h2]
        omega
    | err e =>
      by_cases hp : process_exitted e = true
      · by_cases hx3 : x + 1 > 3
        · rw [show flameLoopGo script (fuel + 1) idx samples errors x
                = { calls := idx + 1, samples := samples, errors := errors,
                    ended := true } from by
              simp [flameLoopGo, hs, hp, hx3]]
          constructor
          · show idx + 1 ≤ idx + (fuel + 1)
            omega
          · intro h2
            simp at h2
        · rw [show flameLoopGo script (fuel + 1) idx samples errors x
                = flameLoopGo script fuel (idx + 1) samples (errors + 1) (x + 1) from by
              simp [flameLoopGo, hs, hp, hx3]]
          have h := ih (idx + 1) samples (errors + 1) (x + 1)
          constructor
          · omega
          · intro h2
            rw [h.2 h2]
            omega
      · have hp' : process_exitted e = false := by simpa using hp
        rw [show flameLoopGo script (fuel + 1) idx samples errors x
              = flameLoopGo script fuel (idx + 1) samples (errors + 1) x from by
            simp [flameLoopGo, hs, hp']]
        have h := ih (idx + 1) samples (errors + 1) x
        constructor
        · omega
        · intro h2
          rw [h.2 h2]
          omega

theorem sample_flame_out (script : Nat → SampleResult) (fenv : FileEnv)
    (filename : String) (os : OS) :
    (sample_flame script fenv filename os).out = flameLoopGo script 2000 0 0 0 0 := by
  unfold sample_flame
  cases fenv.createErr with
  | some e => rfl
  | none =>
    cases fenv.writeErr with
    | some e => rfl
    | none =>
      by_cases h : os = OS.macos
      · cases fenv.openErr with
        | some e => simp [h]
        | none => simp [h]
      · simp [h]

/-- C4: flame mode makes at most 2000 get_stack_traces calls; it makes
exactly 2000 unless the loop detected the target as exited and broke
early; and when the file creation and the flame-graph write succeed the
aggregate is written to the given path. -/
theorem flame_sample_bound (script : Nat → SampleResult) (fenv : FileEnv)
    (filename : String) (os : OS) :
    (sample_flame script fenv filename os).out.calls ≤ 2000
    ∧ ((sample_flame script fenv filename os).out.ended = false →
        (sample_flame script fenv filename os).out.calls = 2000)
    ∧ (fenv.createErr = none → fenv.writeErr = none →
        (sample_flame script fenv filename os).wrote = some filename) := by
  rw [sample_flame_out]
  have h := flameLoopGo_calls script 2000 0 0 0 0
  refine ⟨by omega, fun h2 => by rw [h.2 h2], fun hc hw => ?_⟩
  unfold sample_flame
  rw [hc, hw]
  by_cases h : os = OS.macos
  · cases fenv.openErr with
    | some e => simp [h]
    | none => simp [h]
  · simp [h]

/-- Witness for C4 at a concrete script and file environment. -/
theorem flame_sample_bound_witness :
    (sample_flame (fun _ => SampleResult.ok []) ⟨none, none, none⟩ outSvg OS.linux).out.calls
        ≤ 2000
    ∧ ((sample_flame (fun _ => SampleResult.ok []) ⟨none, none, none⟩ outSvg
          OS.linux).out.ended = false →
        (sample_flame (fun _ => SampleResult.ok []) ⟨none, none, none⟩ outSvg
            OS.linux).out.calls = 2000)
    ∧ ((⟨none, none, none⟩ : FileEnv).createErr = none →
        (⟨none, none, none⟩ : FileEnv).writeErr = none →
        (sample_flame (fun _ => SampleResult.ok []) ⟨none, none, none⟩ outSvg
            OS.linux).wrote = some outSvg) :=
  flame_sample_bound (fun _ => SampleResult.ok []) ⟨none, none, none⟩ outSvg OS.linux

/-- C3 counterexample: a script with six process-exit errors, each
separated by a successful sample (so never even two consecutive exit
errors), still makes the console loop break with "process ended" —
successful samples do not reset exitted_count, so non-consecutive
process-exit errors do accumulate to the threshold. -/
theorem consecutive_reset_counterexample :
    consoleLoopEnds script6 0 = true ∧ hasTwoConsecExit script6 = false := by
  decide

/-- C3 amended: the loops count process-exit errors cumulatively and
never reset the count on a successful sample.  The console loop breaks
with "process ended" exactly when the outcomes it processes contain at
least 6 process-exit-classified errors (exitted_count > 5), and the
flame loop exactly when its 2000 iterations meet at least 4
(exitted_count > 3), regardless of interleaved successes. -/
theorem sampling_exit_threshold :
    (∀ rs : List SampleResult, consoleLoopEnds rs 0 = true ↔ 6 ≤ countExitList rs)
    ∧ (∀ script : Nat → SampleResult,
        (flameLoopGo script 2000 0 0 0 0).ended = true ↔ 4 ≤ countExitFrom script 0 2000) := by
  constructor
  · intro rs
    have h := consoleLoopEnds_iff_count rs 0 (by omega)
    simpa using h
  · intro script
    have h := flameLoopGo_ended_iff script 2000 0 0 0 0 (by omega)
    simpa using h

/-- C2: when pyspy_main fails with an error whose cause chain contains
a PermissionDenied I/O error, main prints exactly the hint line — which
contains the substring Permission Denied — and exits with code 1,
without printing the generic Error/Reason/backtrace report. -/
theorem permission_denied_exits_with_hint (args : Args) (env : Env) (err : PError)
    (h : permission_denied err = true)
    (hrun : (pyspy_main args env).2 = MainOutcome.error err) :
    (mainModel OS.linux 1000 args env).2 = RunResult.exited 1 [permissionHint]
    ∧ mainHandle (MainOutcome.error err) = RunResult.exited 1 [permissionHint]
    ∧ occursIn permDeniedStr permissionHint := by
  refine ⟨?_, by simp [mainHandle, h], ⟨emptyStr, hintSuffix, by decide⟩⟩
  unfold mainModel
  rw [if_neg (by simp)]
  simp [hrun, mainHandle, h]

/-- Witness for C2 at a concrete permission-denied error. -/
theorem permission_denied_exits_with_hint_witness :
    (mainModel OS.linux 1000 argsPidDump envPermErr).2 = RunResult.exited 1 [permissionHint]
    ∧ mainHandle (MainOutcome.error permErr) = RunResult.exited 1 [permissionHint]
    ∧ occursIn permDeniedStr permissionHint :=
  permission_denied_exits_with_hint argsPidDump envPermErr permErr (by decide) (by decide)

/-- C6: on macOS with a nonzero effective user id, main prints the two
root-requirement lines and exits with code 1 with no other work (no
events at all). -/
theorem macos_requires_root (euid : Nat) (args : Args) (env : Env) (h : euid ≠ 0) :
    mainModel OS.macos euid args env
      = ([], RunResult.exited 1 [macosRootMsg1, macosRootMsg2]) := by
  unfold mainModel
  rw [if_pos ⟨rfl, h⟩]

/-- Witness for C6 at a concrete unprivileged user id. -/
theorem macos_requires_root_witness :
    mainModel OS.macos 1000 argsProg envOk
      = ([], RunResult.exited 1 [macosRootMsg1, macosRootMsg2]) :=
  macos_requires_root 1000 argsProg envOk (by decide)

/-- C10: a present --pid value that does not parse as u32 makes
pyspy_main panic with "invalid pid" (the expect on main.rs line 184),
not return an error, so the exit-1 error path is never reached. -/
theorem invalid_pid_panics (args : Args) (env : Env) (s : String)
    (hpid : args.pid = some s) (hparse : parseU32 s = none) :
    pyspy_main args env = ([], MainOutcome.panicked invalidPidMsg) := by
  simp only [pyspy_main, hpid, pidBranch, hparse]

/-- Witness for C10 at the non-numeric pid string abc. -/
theorem invalid_pid_panics_witness :
    pyspy_main argsPidBad envOk = ([], MainOutcome.panicked invalidPidMsg) :=
  invalid_pid_panics argsPidBad envOk pidStrBad rfl (by decide)

/-- C5: every retry_new event carries attempts = 3, and each launch
path — a parsing pid, or a successfully spawned positional program —
does reach a retry_new call with 3 attempts. -/
theorem retry_new_three_attempts :
    (∀ args env p a, Event.retryNew p a ∈ (pyspy_main args env).1 → a = 3)
    ∧ (∀ args env s pid, args.pid = some s → parseU32 s = some pid →
        Event.retryNew pid 3 ∈ (pyspy_main args env).1)
    ∧ (∀ args env prog child, args.pid = none → args.program = some prog →
        env.spawn prog = Except.ok child →
        Event.retryNew child 3 ∈ (pyspy_main args env).1) := by
  refine ⟨?_, ?_, ?_⟩
  · intro args env p a h
    unfold pyspy_main pidBranch progBranch progSampling at h
    repeat' split at h
    all_goals simp_all
  · intro args env s pid hpid hparse
    simp only [pyspy_main, hpid, pidBranch, hparse]
    cases henv : env.retryNew pid 3 with
    | error e => simp [henv]
    | ok u =>
      simp only [henv]
      by_cases hd : args.dumpCount > 0
      · cases hdt : env.dumpTraces with
        | error e => simp [hd, hdt]
        | ok traces => simp [hd, hdt]
      · cases hf : args.flame with
        | none => simp [hd, hf]
        | some flameFile => simp [hd, hf]
  · intro args env prog child hpid hprog hspawn
    simp only [pyspy_main, hpid, hprog, progBranch, hspawn]
    cases htw : env.tryWait with
    | error e =>
      cases hr : env.retryNew child 3 with
      | error e2 => simp [htw, progSampling, hr]
      | ok u =>
        cases hf : args.flame with
        | none => simp [htw, progSampling, hr, hf]
        | some flameFile => simp [htw, progSampling, hr, hf]
    | ok st =>
      cases hr : env.retryNew child 3 with
      | error e2 => simp [htw, progSampling, hr]
      | ok u =>
        cases hf : args.flame with
        | none => simp [htw, progSampling, hr, hf]
        | some flameFile => simp [htw, progSampling, hr, hf]

/-- Witness for C5: the pid launch path at pid 12 records
retry_new(12, 3). -/
theorem retry_new_three_attempts_witness :
    Event.retryNew 12 3 ∈ (pyspy_main argsPidDump envOk).1 :=
  retry_new_three_attempts.2.1 argsPidDump envOk pidStrOk 12 rfl (by decide)

/-- C9: the dump path prints with show_idle = true and, even when
--flame is also given, produces no flame graph (--dump wins); with
show_idle = false print_traces drops exactly the traces with
active = false; and every console-sampling call passes
show_idle = false. -/
theorem dump_idle_and_precedence :
    (∀ args env s pid traces, args.pid = some s → parseU32 s = some pid →
        env.retryNew pid 3 = Except.ok () → 0 < args.dumpCount →
        env.dumpTraces = Except.ok traces →
        (pyspy_main args env).1
            = [Event.retryNew pid 3, Event.printTracesCall traces true]
          ∧ ∀ f, Event.sampleFlameCall f ∉ (pyspy_main args env).1)
    ∧ (∀ traces, print_traces traces false
        = print_traces (traces.filter fun t => t.active) true)
    ∧ (∀ args env d b, Event.sampleConsoleCall d b ∈ (pyspy_main args env).1 →
        b = false) := by
  refine ⟨?_, ?_, ?_⟩
  · intro args env s pid traces hpid hparse henv hd hdt
    have hmain : (pyspy_main args env).1
        = [Event.retryNew pid 3, Event.printTracesCall traces true] := by
      simp [pyspy_main, hpid, pidBranch, hparse, henv, hd, hdt]
    refine ⟨hmain, ?_⟩
    intro f
    rw [hmain]
    simp
  · intro traces
    induction traces with
    | nil => rfl
    | cons t rest ih =>
      cases ht : t.active
      · simp [print_traces, List.filter_cons, ht, ih]
      · simp [print_traces, List.filter_cons, ht, ih]
  · intro args env d b h
    unfold pyspy_main pidBranch progBranch progSampling at h
    repeat' split at h
    all_goals simp_all

/-- Witness for C9: with --pid 12 --dump --flame out.svg, the dump is
printed with show_idle = true and no flame sampling happens. -/
theorem dump_idle_and_precedence_witness :
    (pyspy_main argsPidDump envOk).1
        = [Event.retryNew 12 3, Event.printTracesCall [traceA] true]
      ∧ ∀ f, Event.sampleFlameCall f ∉ (pyspy_main argsPidDump envOk).1 :=
  dump_idle_and_precedence.1 argsPidDump envOk pidStrOk 12 [traceA] rfl (by decide) rfl
    (by decide) rfl

/-- C7 counterexample: in the program branch with a successfully
spawned child, a failing try_wait propagates through its question-mark
operator before the kill: pyspy_main returns an error and no kill event
happens, leaving the child alive. -/
theorem child_kill_counterexample :
    (pyspy_main argsProg envWaitErr).2 = MainOutcome.error waitErr
    ∧ hasKill (pyspy_main argsProg envWaitErr).1 = false := by
  decide

/-- C7 amended: in the program branch the child is killed before
pyspy_main returns on every exit path that passes the try_wait call —
whenever try_wait succeeds the kill runs, regardless of the sampling
result — and when everything completes cleanly the program exits with
code 0.  (When try_wait itself fails, its error propagates without the
kill.) -/
theorem child_killed_after_wait (args : Args) (env : Env) (prog : List String)
    (child : Nat) (st : Option Bool)
    (hpid : args.pid = none) (hprog : args.program = some prog)
    (hspawn : env.spawn prog = Except.ok child) (hwait : env.tryWait = Except.ok st) :
    (∃ pre, (pyspy_main args env).1 = pre ++ [Event.kill child])
    ∧ ((pyspy_main args env).2 = MainOutcome.ok →
        (mainModel OS.linux 1000 args env).2 = RunResult.exited 0 []) := by
  constructor
  · refine ⟨Event.spawnChild prog :: (progSampling prog args env child).1, ?_⟩
    simp [pyspy_main, hpid, hprog, progBranch, hspawn, hwait]
  · intro hok
    unfold mainModel
    rw [if_neg (by simp)]
    simp [hok, mainHandle]

/-- Witness for C7's amended statement at a concrete clean run. -/
theorem child_killed_after_wait_witness :
    (∃ pre, (pyspy_main argsProg envOk).1 = pre ++ [Event.kill 7])
    ∧ ((pyspy_main argsProg envOk).2 = MainOutcome.ok →
        (mainModel OS.linux 1000 argsProg envOk).2 = RunResult.exited 0 []) :=
  child_killed_after_wait argsProg envOk progCmd 7 (some true) rfl rfl rfl rfl

/-- Witness for C1 at a concrete trace list. -/
theorem print_traces_dump_format_witness :
    print_traces [traceA] true = dumpOutputClaim [traceA] :=
  print_traces_dump_format.1 [traceA]

/-- Witness for C8 at a concrete process-exit error. -/
theorem process_exit_classification_witness :
    process_exitted exitErr = true ↔
      ∃ c ∈ exitErr.causes, ∃ k m code, c = Cause.io k (some code) m
        ∧ (code = 3 ∨ code = 60 ∨ code = 299) :=
  process_exit_classification exitErr

/-- Witness for C3's amended statement at the counterexample script. -/
theorem sampling_exit_threshold_witness :
    consoleLoopEnds script6 0 = true ↔ 6 ≤ countExitList script6 :=
  sampling_exit_threshold.1 script6

end PySpy
